import Mathlib

/-!
Shallow embedding of the sentiment trading signal engine.

The definitions below are translated from
`src/trading_logic/signal_generator.py` (class `TradingSignalGenerator`)
and from the consensus vote in `src/web_app/app.py`
(`TradingAnalysisService.run_complete_analysis`).

Modelling conventions:
* A sentiment observation carries its label, its classifier confidence and
  its age in whole days (the Python code derives the age from the
  `published_at` column, clipping negative ages to 0, so a natural number
  age is the faithful value the rest of the code consumes).
* The sentiment label, confidence and date columns are present in every
  batch, matching the default column names used throughout the pipeline;
  the missing-column fallbacks of the Python code are therefore never
  taken, and the datetime normalization never raises.
* Python floats are modelled as rationals.  `round(x, 3)` is modelled by
  `round3`, using the round-half-to-even rule of Python `round`.
* The textual rendering of numbers inside `reason` strings is abstracted
  by `toString`; no code branches on reason text.
* The `timestamp` field (wall-clock time, informational only) is omitted.
* The `details` dictionary is an insertion-ordered association list and
  `dict.update` is modelled by `dupdate` (overwrite in place when the key
  exists, append otherwise), as in Python.
-/

namespace SignalGen

inductive Label where
  | positive
  | negative
  | neutral
deriving DecidableEq, Repr

inductive Signal where
  | BUY
  | SELL
  | HOLD
  | INSUFFICIENT_DATA
deriving DecidableEq, BEq, Repr, Fintype

/-- One sentiment observation: one row of the analyzed DataFrame. -/
structure Obs where
  label : Label
  conf : ℚ
  ageDays : ℕ
deriving DecidableEq, Repr

/-- Constructor arguments of `TradingSignalGenerator.__init__`. -/
structure Config where
  positive_threshold : ℚ
  negative_threshold : ℚ
  min_articles : ℕ
  confidence_weight : ℚ
deriving Repr

/-- The default constructor arguments (2.0, 2.0, 5, 0.3). -/
def defaultConfig : Config := ⟨2, 2, 5, 3/10⟩

/-- A value stored in the diagnostic `details` dictionary. -/
inductive DetailVal where
  | num (q : ℚ)
  | str (s : String)
deriving DecidableEq, Repr

/-- A Python dict with string keys, in insertion order. -/
abbrev Details := List (String × DetailVal)

/-- Lookup of a key in a `details` dictionary (first matching entry). -/
def dlookup : Details → String → Option DetailVal
  | [], _ => none
  | e :: tl, k => if e.1 == k then some e.2 else dlookup tl k

/-- Whether a key is present in a `details` dictionary. -/
def dhasKey (d : Details) (k : String) : Bool :=
  d.any (fun p => p.1 == k)

/-- Writing one key of a Python dict: overwrite in place when the key is
present, append at the end otherwise. -/
def dinsert (d : Details) (e : String × DetailVal) : Details :=
  if dhasKey d e.1 then d.map (fun p => if p.1 == e.1 then e else p) else d ++ [e]

/-- Python `dict.update`: write the new entries left to right. -/
def dupdate (d : Details) (news : Details) : Details :=
  news.foldl dinsert d

structure SignalResult where
  signal : Signal
  confidence : ℚ
  reason : String
  details : Details
deriving DecidableEq, Repr

/-- Round-half-to-even to an integer, as Python `round` does. -/
def rhe (q : ℚ) : ℤ :=
  if q = (⌊q⌋ : ℚ) + 1/2 then (if ⌊q⌋ % 2 = 0 then ⌊q⌋ else ⌊q⌋ + 1)
  else round q

/-- Python `round(q, 3)`. -/
def round3 (q : ℚ) : ℚ := (rhe (1000 * q) : ℚ) / 1000

/-- Number of rows whose sentiment label equals `l`
(`df[sentiment_column].value_counts()` lookups). -/
def countLabel (df : List Obs) (l : Label) : ℕ :=
  df.countP (fun o => decide (o.label = l))

/-- Sum of the confidence column over the rows labelled `l`. -/
def sumConf (df : List Obs) (l : Label) : ℚ :=
  ((df.filter (fun o => decide (o.label = l))).map Obs.conf).sum

/-- `total_weight` of `generate_weighted_signal`. -/
def totalConfWeight (df : List Obs) : ℚ :=
  sumConf df .positive + sumConf df .negative + sumConf df .neutral

/-- `weighted_<label>_pct` of `generate_weighted_signal`. -/
def weightedPct (df : List Obs) (l : Label) : ℚ :=
  sumConf df l / totalConfWeight df * 100

/-- Recency weight of one row: 2.0 within the recent window, else 1.0. -/
def timeWeight (recentDays : ℕ) (o : Obs) : ℚ :=
  if o.ageDays ≤ recentDays then 2 else 1

/-- Sum of the recency weights over the rows labelled `l`. -/
def sumTimeWeightLabel (recentDays : ℕ) (df : List Obs) (l : Label) : ℚ :=
  ((df.filter (fun o => decide (o.label = l))).map (timeWeight recentDays)).sum

/-- `total_time_weight` of `generate_time_weighted_signal`. -/
def totalTimeWeight (recentDays : ℕ) (df : List Obs) : ℚ :=
  sumTimeWeightLabel recentDays df .positive + sumTimeWeightLabel recentDays df .negative
    + sumTimeWeightLabel recentDays df .neutral

/-- `time_<label>_pct` of `generate_time_weighted_signal`. -/
def timePct (recentDays : ℕ) (df : List Obs) (l : Label) : ℚ :=
  sumTimeWeightLabel recentDays df l / totalTimeWeight recentDays df * 100

/-- `len(df_copy[df_copy[days_ago] <= recent_days])`. -/
def recentCount (recentDays : ℕ) (df : List Obs) : ℕ :=
  df.countP (fun o => decide (o.ageDays ≤ recentDays))

/-- The signal / unrounded confidence / reason chosen by the `if`/`elif`
cascade of `generate_basic_signal` (source lines 66-106). -/
def basicDecision (cfg : Config) (p n total : ℕ) : Signal × ℚ × String :=
  if n = 0 ∧ 0 < p then
    (.BUY, min (9/10) (7/10 + ((p : ℚ) / total) * (2/10)),
     "No negative sentiment detected, " ++ toString p ++ " positive articles")
  else if p = 0 ∧ 0 < n then
    (.SELL, min (9/10) (7/10 + ((n : ℚ) / total) * (2/10)),
     "No positive sentiment detected, " ++ toString n ++ " negative articles")
  else if 0 < p ∧ 0 < n then
    if cfg.positive_threshold ≤ (p : ℚ) / n then
      (.BUY, min (9/10) (6/10 + ((p : ℚ) / n) / cfg.positive_threshold * (3/10)),
       "Positive articles (" ++ toString p ++ ") are " ++ toString ((p : ℚ) / n)
         ++ "x more than negative (" ++ toString n ++ ")")
    else if cfg.negative_threshold ≤ (n : ℚ) / p then
      (.SELL, min (9/10) (6/10 + ((n : ℚ) / p) / cfg.negative_threshold * (3/10)),
       "Negative articles (" ++ toString n ++ ") are " ++ toString ((n : ℚ) / p)
         ++ "x more than positive (" ++ toString p ++ ")")
    else
      (.HOLD, 5/10 - |(p : ℚ) / n - 1| * (1/10),
       "Sentiment is mixed - positive: " ++ toString p ++ ", negative: " ++ toString n
         ++ " (ratio: " ++ toString ((p : ℚ) / n) ++ ")")
  else
    (.HOLD, 4/10, "No clear sentiment direction detected")

/-- The diagnostic dictionary built by `generate_basic_signal`. -/
def basicDetails (p n u total : ℕ) : Details :=
  [("total_articles", .num (total : ℚ)),
   ("positive_count", .num (p : ℚ)),
   ("negative_count", .num (n : ℚ)),
   ("neutral_count", .num (u : ℚ)),
   ("positive_percentage", .num (((p : ℚ) / total) * 100)),
   ("negative_percentage", .num (((n : ℚ) / total) * 100)),
   ("neutral_percentage", .num (((u : ℚ) / total) * 100)),
   ("positive_to_negative_ratio", .num ((p : ℚ) / (max n 1 : ℕ))),
   ("negative_to_positive_ratio", .num ((n : ℚ) / (max p 1 : ℕ))),
   ("sentiment_column_used", .str "combined_sentiment_label")]

/-- `TradingSignalGenerator.generate_basic_signal`. -/
def generate_basic_signal (cfg : Config) (df : List Obs) : SignalResult :=
  if df.length < cfg.min_articles then
    { signal := .INSUFFICIENT_DATA
      confidence := 0
      reason := "Insufficient articles. Need at least " ++ toString cfg.min_articles
        ++ ", got " ++ toString df.length
      details := [] }
  else
    let d := basicDecision cfg (countLabel df .positive) (countLabel df .negative) df.length
    { signal := d.1
      confidence := round3 d.2.1
      reason := d.2.2
      details := basicDetails (countLabel df .positive) (countLabel df .negative)
        (countLabel df .neutral) df.length }

/-- Reason text installed when the weighted stage flips the signal to BUY. -/
def weightedBuyReason (wp wn : ℚ) : String :=
  "Weighted analysis: " ++ toString wp ++ "% positive vs " ++ toString wn ++ "% negative"

/-- Reason text installed when the weighted stage flips the signal to SELL. -/
def weightedSellReason (wn wp : ℚ) : String :=
  "Weighted analysis: " ++ toString wn ++ "% negative vs " ++ toString wp ++ "% positive"

/-- The entries `generate_weighted_signal` adds to the dictionary. -/
def wNewDetails (wp wn wu tw : ℚ) : Details :=
  [("weighted_positive_percentage", .num wp),
   ("weighted_negative_percentage", .num wn),
   ("weighted_neutral_percentage", .num wu),
   ("confidence_column_used", .str "combined_sentiment_confidence"),
   ("total_confidence_weight", .num tw)]

/-- The override cascade of `generate_weighted_signal` (source lines
172-188), applied to the basic stage result. -/
def weightedDecision (cfg : Config) (df : List Obs) (basic : SignalResult) :
    Signal × ℚ × String :=
  if weightedPct df .negative * cfg.positive_threshold < weightedPct df .positive then
    (.BUY, min (19/20) (basic.confidence + cfg.confidence_weight * (2/10)),
     if basic.signal = .BUY then basic.reason
     else weightedBuyReason (weightedPct df .positive) (weightedPct df .negative))
  else if weightedPct df .positive * cfg.negative_threshold < weightedPct df .negative then
    (.SELL, min (19/20) (basic.confidence + cfg.confidence_weight * (2/10)),
     if basic.signal = .SELL then basic.reason
     else weightedSellReason (weightedPct df .negative) (weightedPct df .positive))
  else (basic.signal, basic.confidence, basic.reason)

/-- `TradingSignalGenerator.generate_weighted_signal`. -/
def generate_weighted_signal (cfg : Config) (df : List Obs) : SignalResult :=
  let basic := generate_basic_signal cfg df
  if basic.signal = .INSUFFICIENT_DATA then basic
  else if totalConfWeight df = 0 then basic
  else
    { signal := (weightedDecision cfg df basic).1
      confidence := round3 (weightedDecision cfg df basic).2.1
      reason := (weightedDecision cfg df basic).2.2
      details := dupdate basic.details
        (wNewDetails (weightedPct df .positive) (weightedPct df .negative)
          (weightedPct df .neutral) (totalConfWeight df)) }

/-- The entries `generate_time_weighted_signal` adds to the dictionary. -/
def tNewDetails (tp tn : ℚ) (recentDays recent : ℕ) : Details :=
  [("time_weighted_positive_percentage", .num tp),
   ("time_weighted_negative_percentage", .num tn),
   ("recent_days_threshold", .num (recentDays : ℚ)),
   ("articles_in_recent_period", .num (recent : ℚ))]

/-- The override cascade of `generate_time_weighted_signal` (source lines
291-304), applied to the weighted stage result.  Unlike the weighted
stage the comparisons use absolute weighted sums, the reason is replaced
unconditionally, and there is no INSUFFICIENT_DATA guard. -/
def timeDecision (cfg : Config) (df : List Obs) (recentDays : ℕ) (base : SignalResult) :
    Signal × ℚ × String :=
  if sumTimeWeightLabel recentDays df .negative * cfg.positive_threshold
      < sumTimeWeightLabel recentDays df .positive then
    (.BUY, min (19/20) (base.confidence + 1/10),
     "Time-weighted analysis favors BUY: " ++ toString (timePct recentDays df .positive)
       ++ "% positive (recent articles weighted 2x)")
  else if sumTimeWeightLabel recentDays df .positive * cfg.negative_threshold
      < sumTimeWeightLabel recentDays df .negative then
    (.SELL, min (19/20) (base.confidence + 1/10),
     "Time-weighted analysis favors SELL: " ++ toString (timePct recentDays df .negative)
       ++ "% negative (recent articles weighted 2x)")
  else (base.signal, base.confidence, base.reason)

/-- `TradingSignalGenerator.generate_time_weighted_signal` (with the date
column present and parseable, so the recency weights are computed). -/
def generate_time_weighted_signal (cfg : Config) (df : List Obs) (recentDays : ℕ) : SignalResult :=
  let base := generate_weighted_signal cfg df
  if totalTimeWeight recentDays df = 0 then base
  else
    { signal := (timeDecision cfg df recentDays base).1
      confidence := round3 (timeDecision cfg df recentDays base).2.1
      reason := (timeDecision cfg df recentDays base).2.2
      details := dupdate base.details
        (tNewDetails (timePct recentDays df .positive) (timePct recentDays df .negative)
          recentDays (recentCount recentDays df)) }

/-- The majority vote of `run_complete_analysis` (app.py lines 66-74). -/
def consensusSignal (s1 s2 s3 : Signal) : Signal :=
  if 2 ≤ [s1, s2, s3].count .BUY then .BUY
  else if 2 ≤ [s1, s2, s3].count .SELL then .SELL
  else .HOLD

/-- The decision core of `run_complete_analysis`: the three stage results,
the consensus vote, and the rounded average confidence. -/
def runConsensus (cfg : Config) (df : List Obs) (recentDays : ℕ) : Signal × ℚ :=
  let b := generate_basic_signal cfg df
  let w := generate_weighted_signal cfg df
  let t := generate_time_weighted_signal cfg df recentDays
  (consensusSignal b.signal w.signal t.signal,
   round3 ((b.confidence + w.confidence + t.confidence) / 3))

/-- Keys of the basic diagnostic dictionary. -/
def basicKeys : List String :=
  ["total_articles", "positive_count", "negative_count", "neutral_count",
   "positive_percentage", "negative_percentage", "neutral_percentage",
   "positive_to_negative_ratio", "negative_to_positive_ratio", "sentiment_column_used"]

/-- Keys added by the weighted stage. -/
def wKeys : List String :=
  ["weighted_positive_percentage", "weighted_negative_percentage",
   "weighted_neutral_percentage", "confidence_column_used", "total_confidence_weight"]

/-- Keys added by the time-weighted stage. -/
def tKeys : List String :=
  ["time_weighted_positive_percentage", "time_weighted_negative_percentage",
   "recent_days_threshold", "articles_in_recent_period"]

/-! Concrete batches used as witnesses and counterexamples. -/

/-- Two positive articles aged 0 days: below the default `min_articles`. -/
def dfBug : List Obs := [⟨.positive, 9/10, 0⟩, ⟨.positive, 8/10, 0⟩]

/-- A configuration with large ratio thresholds (20.0). -/
def cfgWide : Config := ⟨20, 20, 5, 3/10⟩

/-- 10 positive / 1 negative: an extreme mixed batch. -/
def dfSkew : List Obs := List.replicate 10 ⟨.positive, 1/2, 0⟩ ++ [⟨.negative, 1/2, 0⟩]

/-- 1 positive / 400 neutral: rounding boundary for the pure-BUY branch. -/
def dfEdge : List Obs := ⟨.positive, 1/2, 0⟩ :: List.replicate 400 ⟨.neutral, 1/2, 0⟩

/-- Scenario A of the spec: 15 positive / 3 negative / 2 neutral. -/
def dfScenA : List Obs :=
  List.replicate 15 ⟨.positive, 1/2, 0⟩ ++ List.replicate 3 ⟨.negative, 1/2, 0⟩
    ++ List.replicate 2 ⟨.neutral, 1/2, 0⟩

/-- Scenario C of the spec: 8 positive / 7 negative / 5 neutral. -/
def dfScenC : List Obs :=
  List.replicate 8 ⟨.positive, 1/2, 0⟩ ++ List.replicate 7 ⟨.negative, 1/2, 0⟩
    ++ List.replicate 5 ⟨.neutral, 1/2, 0⟩

/-- Five positive articles. -/
def dfPos5 : List Obs := List.replicate 5 ⟨.positive, 1/2, 0⟩

/-- Five positive articles whose classifier confidences are all 0. -/
def dfZeroConf : List Obs := List.replicate 5 ⟨.positive, 0, 0⟩

/-- Three neutral articles. -/
def dfNeutral3 : List Obs := List.replicate 3 ⟨.neutral, 1/2, 0⟩

/-- 5 positive (confidence 0.8) / 1 negative (confidence 0.1). -/
def dfWBuy : List Obs := List.replicate 5 ⟨.positive, 4/5, 0⟩ ++ [⟨.negative, 1/10, 0⟩]

end SignalGen

namespace SignalGen

/-! Evaluation lemmas for the batch aggregates. -/

@[simp] theorem countLabel_nil (l : Label) : countLabel [] l = 0 := rfl

@[simp] theorem countLabel_cons (o : Obs) (df : List Obs) (l : Label) :
    countLabel (o :: df) l = countLabel df l + (if o.label = l then 1 else 0) := by
  simp [countLabel, List.countP_cons]

@[simp] theorem countLabel_append (a b : List Obs) (l : Label) :
    countLabel (a ++ b) l = countLabel a l + countLabel b l := by
  simp [countLabel, List.countP_append]

@[simp] theorem countLabel_replicate (k : ℕ) (o : Obs) (l : Label) :
    countLabel (List.replicate k o) l = if o.label = l then k else 0 := by
  induction k with
  | zero => simp
  | succ k ih => rw [List.replicate_succ, countLabel_cons, ih]; split <;> omega

@[simp] theorem sumConf_nil (l : Label) : sumConf [] l = 0 := rfl

@[simp] theorem sumConf_cons (o : Obs) (df : List Obs) (l : Label) :
    sumConf (o :: df) l = (if o.label = l then o.conf else 0) + sumConf df l := by
  simp [sumConf, List.filter_cons]
  split <;> simp

@[simp] theorem sumConf_append (a b : List Obs) (l : Label) :
    sumConf (a ++ b) l = sumConf a l + sumConf b l := by
  simp [sumConf, List.filter_append]

@[simp] theorem sumConf_replicate (k : ℕ) (o : Obs) (l : Label) :
    sumConf (List.replicate k o) l = if o.label = l then (k : ℚ) * o.conf else 0 := by
  induction k with
  | zero => simp
  | succ k ih =>
    rw [List.replicate_succ, sumConf_cons, ih]
    split <;> push_cast <;> ring

@[simp] theorem sumTimeWeightLabel_nil (rd : ℕ) (l : Label) :
    sumTimeWeightLabel rd [] l = 0 := rfl

@[simp] theorem sumTimeWeightLabel_cons (rd : ℕ) (o : Obs) (df : List Obs) (l : Label) :
    sumTimeWeightLabel rd (o :: df) l
      = (if o.label = l then timeWeight rd o else 0) + sumTimeWeightLabel rd df l := by
  simp [sumTimeWeightLabel, List.filter_cons]
  split <;> simp

@[simp] theorem sumTimeWeightLabel_append (rd : ℕ) (a b : List Obs) (l : Label) :
    sumTimeWeightLabel rd (a ++ b) l = sumTimeWeightLabel rd a l + sumTimeWeightLabel rd b l := by
  simp [sumTimeWeightLabel, List.filter_append]

@[simp] theorem sumTimeWeightLabel_replicate (rd k : ℕ) (o : Obs) (l : Label) :
    sumTimeWeightLabel rd (List.replicate k o) l
      = if o.label = l then (k : ℚ) * timeWeight rd o else 0 := by
  induction k with
  | zero => simp
  | succ k ih =>
    rw [List.replicate_succ, sumTimeWeightLabel_cons, ih]
    split <;> push_cast <;> ring

/-! Bounds for round-half-to-even rounding. -/

theorem rhe_le (q : ℚ) (n : ℤ) (h : q ≤ (n : ℚ)) : rhe q ≤ n := by
  unfold rhe
  split_ifs with h1 h2
  · have := Int.floor_le_floor h
    simpa using this
  · have hlt : ((⌊q⌋ : ℚ)) < (n : ℚ) := by
      rw [h1] at h; linarith
    have : ⌊q⌋ < n := by exact_mod_cast hlt
    omega
  · rw [round_eq]
    have : ⌊q + 1/2⌋ < n + 1 := by
      rw [Int.floor_lt]
      push_cast
      linarith
    omega

theorem le_rhe (q : ℚ) (n : ℤ) (h : (n : ℚ) ≤ q) : n ≤ rhe q := by
  unfold rhe
  split_ifs with h1 h2
  · exact Int.le_floor.mpr h
  · have : n ≤ ⌊q⌋ := Int.le_floor.mpr h
    omega
  · rw [round_eq]
    exact Int.le_floor.mpr (by linarith)

theorem round3_le_of_le (q : ℚ) (n : ℤ) (h : q ≤ (n : ℚ)/1000) : round3 q ≤ (n : ℚ)/1000 := by
  have h1 : 1000 * q ≤ (n : ℚ) := by linarith
  have h2 : ((rhe (1000 * q) : ℤ) : ℚ) ≤ (n : ℚ) := by exact_mod_cast rhe_le (1000*q) n h1
  unfold round3
  linarith

theorem le_round3_of_le (q : ℚ) (n : ℤ) (h : (n : ℚ)/1000 ≤ q) : (n : ℚ)/1000 ≤ round3 q := by
  have h1 : (n : ℚ) ≤ 1000 * q := by linarith
  have h2 : (n : ℚ) ≤ ((rhe (1000 * q) : ℤ) : ℚ) := by exact_mod_cast le_rhe (1000*q) n h1
  unfold round3
  linarith

theorem round3_le_cap (q : ℚ) (h : q ≤ 19/20) : round3 q ≤ 19/20 := by
  have := round3_le_of_le q 950 (by push_cast; linarith)
  push_cast at this
  linarith

theorem round3_le_nine (q : ℚ) (h : q ≤ 9/10) : round3 q ≤ 9/10 := by
  have := round3_le_of_le q 900 (by push_cast; linarith)
  push_cast at this
  linarith

theorem round3_nonneg (q : ℚ) (h : 0 ≤ q) : 0 ≤ round3 q := by
  have := le_round3_of_le q 0 (by push_cast; linarith)
  push_cast at this
  linarith

theorem round3_ge_seven (q : ℚ) (h : 7/10 ≤ q) : 7/10 ≤ round3 q := by
  have := le_round3_of_le q 700 (by push_cast; linarith)
  push_cast at this
  linarith

theorem round3_ge_two_fifths (q : ℚ) (h : 2/5 ≤ q) : 2/5 ≤ round3 q := by
  have := le_round3_of_le q 400 (by push_cast; linarith)
  push_cast at this
  linarith

theorem round3_zero : round3 0 = 0 := by
  norm_num [round3, rhe, round_eq]

/-! Structure of the basic decision cascade. -/

theorem basicDecision_conf_le (cfg : Config) (p n t : ℕ) :
    (basicDecision cfg p n t).2.1 ≤ 9/10 := by
  unfold basicDecision
  split_ifs <;> dsimp only <;>
    first
      | exact min_le_left _ _
      | linarith [abs_nonneg ((p : ℚ) / n - 1)]

theorem basicDecision_signal_ne (cfg : Config) (p n t : ℕ) :
    (basicDecision cfg p n t).1 ≠ .INSUFFICIENT_DATA := by
  unfold basicDecision
  split_ifs <;> simp

theorem basicDecision_pure_pos (cfg : Config) (p n t : ℕ) (hn : n = 0) (hp : 0 < p) :
    basicDecision cfg p n t
      = (.BUY, min (9/10) (7/10 + ((p : ℚ) / t) * (2/10)),
         "No negative sentiment detected, " ++ toString p ++ " positive articles") := by
  unfold basicDecision
  rw [if_pos ⟨hn, hp⟩]

theorem basicDecision_ratio_buy (cfg : Config) (p n t : ℕ) (hp : 0 < p) (hn : 0 < n)
    (hr : cfg.positive_threshold ≤ (p : ℚ) / n) :
    basicDecision cfg p n t
      = (.BUY, min (9/10) (6/10 + ((p : ℚ) / n) / cfg.positive_threshold * (3/10)),
         "Positive articles (" ++ toString p ++ ") are " ++ toString ((p : ℚ) / n)
           ++ "x more than negative (" ++ toString n ++ ")") := by
  unfold basicDecision
  rw [if_neg (by simp [Nat.pos_iff_ne_zero.mp hn]), if_neg (by simp [Nat.pos_iff_ne_zero.mp hp]),
    if_pos ⟨hp, hn⟩, if_pos hr]

theorem basicDecision_mixed_hold (cfg : Config) (p n t : ℕ) (hp : 0 < p) (hn : 0 < n)
    (hr1 : ¬ cfg.positive_threshold ≤ (p : ℚ) / n)
    (hr2 : ¬ cfg.negative_threshold ≤ (n : ℚ) / p) :
    basicDecision cfg p n t
      = (.HOLD, 5/10 - |(p : ℚ) / n - 1| * (1/10),
         "Sentiment is mixed - positive: " ++ toString p ++ ", negative: " ++ toString n
           ++ " (ratio: " ++ toString ((p : ℚ) / n) ++ ")") := by
  unfold basicDecision
  rw [if_neg (by simp [Nat.pos_iff_ne_zero.mp hn]), if_neg (by simp [Nat.pos_iff_ne_zero.mp hp]),
    if_pos ⟨hp, hn⟩, if_neg hr1, if_neg hr2]

/-! Structure of `generate_basic_signal`. -/

theorem basic_eq_of_len (cfg : Config) (df : List Obs) (h : ¬ df.length < cfg.min_articles) :
    generate_basic_signal cfg df
      = { signal := (basicDecision cfg (countLabel df .positive) (countLabel df .negative)
            df.length).1
          confidence := round3 (basicDecision cfg (countLabel df .positive)
            (countLabel df .negative) df.length).2.1
          reason := (basicDecision cfg (countLabel df .positive) (countLabel df .negative)
            df.length).2.2
          details := basicDetails (countLabel df .positive) (countLabel df .negative)
            (countLabel df .neutral) df.length } := by
  simp only [generate_basic_signal, if_neg h]

theorem basic_signal_insufficient_iff (cfg : Config) (df : List Obs) :
    (generate_basic_signal cfg df).signal = .INSUFFICIENT_DATA ↔ df.length < cfg.min_articles := by
  by_cases h : df.length < cfg.min_articles
  · simp only [generate_basic_signal, if_pos h]
    simp [h]
  · rw [basic_eq_of_len cfg df h]
    simp [h, basicDecision_signal_ne]

theorem basic_conf_zero_of_insufficient (cfg : Config) (df : List Obs)
    (h : (generate_basic_signal cfg df).signal = .INSUFFICIENT_DATA) :
    (generate_basic_signal cfg df).confidence = 0 := by
  have hlen := (basic_signal_insufficient_iff cfg df).mp h
  simp only [generate_basic_signal, if_pos hlen]

theorem basic_conf_le (cfg : Config) (df : List Obs) :
    (generate_basic_signal cfg df).confidence ≤ 9/10 := by
  by_cases h : df.length < cfg.min_articles
  · simp only [generate_basic_signal, if_pos h]
    norm_num
  · rw [basic_eq_of_len cfg df h]
    exact round3_le_nine _ (basicDecision_conf_le _ _ _ _)

/-! Claim C4. -/

/-- C4 (amended): for every batch with at least `min_articles` rows, at
least one positive label and no negative label, `generate_basic_signal`
returns BUY, and its confidence is `min(0.9, 0.7 + positive/total * 0.2)`
rounded to 3 decimals; the unrounded value lies in the half-open interval
(0.7, 0.9], and the rounded confidence lies in the closed interval
[0.7, 0.9] (rounding can reach 0.7 exactly when positive/total is tiny). -/
theorem claim_c4 (cfg : Config) (df : List Obs)
    (hlen : cfg.min_articles ≤ df.length)
    (hp : 0 < countLabel df .positive)
    (hn : countLabel df .negative = 0) :
    (generate_basic_signal cfg df).signal = .BUY
    ∧ (generate_basic_signal cfg df).confidence
        = round3 (min (9/10) (7/10 + ((countLabel df .positive : ℚ) / df.length) * (2/10)))
    ∧ 7/10 < min (9/10 : ℚ) (7/10 + ((countLabel df .positive : ℚ) / df.length) * (2/10))
    ∧ min (9/10 : ℚ) (7/10 + ((countLabel df .positive : ℚ) / df.length) * (2/10)) ≤ 9/10
    ∧ 7/10 ≤ (generate_basic_signal cfg df).confidence
    ∧ (generate_basic_signal cfg df).confidence ≤ 9/10 := by
  have ht : 0 < df.length := lt_of_lt_of_le hp (List.countP_le_length _)
  have hx : 0 < ((countLabel df .positive : ℚ) / df.length) * (2/10) := by
    have h1 : (0:ℚ) < countLabel df .positive := by exact_mod_cast hp
    have h2 : (0:ℚ) < df.length := by exact_mod_cast ht
    have := div_pos h1 h2
    linarith
  have hFgt : 7/10 < min (9/10 : ℚ)
      (7/10 + ((countLabel df .positive : ℚ) / df.length) * (2/10)) :=
    lt_min (by norm_num) (by linarith)
  have hFle : min (9/10 : ℚ)
      (7/10 + ((countLabel df .positive : ℚ) / df.length) * (2/10)) ≤ 9/10 :=
    min_le_left _ _
  rw [basic_eq_of_len cfg df (not_lt.mpr hlen), basicDecision_pure_pos cfg _ _ _ hn hp]
  exact ⟨rfl, rfl, hFgt, hFle, round3_ge_seven _ (le_of_lt hFgt), round3_le_nine _ hFle⟩

/-- Witness for C4: five positive articles give BUY with confidence 0.9. -/
theorem claim_c4_witness :
    defaultConfig.min_articles ≤ dfPos5.length
    ∧ 0 < countLabel dfPos5 .positive
    ∧ countLabel dfPos5 .negative = 0
    ∧ (generate_basic_signal defaultConfig dfPos5).signal = .BUY
    ∧ (generate_basic_signal defaultConfig dfPos5).confidence = 9/10 := by
  have h := claim_c4 defaultConfig dfPos5 (by norm_num +decide [dfPos5, defaultConfig])
    (by norm_num +decide [dfPos5]) (by norm_num +decide [dfPos5])
  refine ⟨by norm_num +decide [dfPos5, defaultConfig], by norm_num +decide [dfPos5],
    by norm_num +decide [dfPos5], h.1, ?_⟩
  rw [h.2.1]
  norm_num +decide [dfPos5, round3, rhe, round_eq, min_def]

set_option maxRecDepth 8000 in
/-- C4 counterexample to the claim as stated: a batch of 1 positive and
400 neutral articles (no negatives, total 401) yields BUY, but the
rounded confidence is exactly 0.7, outside the half-open interval
(0.7, 0.9] the claim asserts. -/
theorem claim_c4_counterexample :
    (generate_basic_signal defaultConfig dfEdge).signal = .BUY
    ∧ (generate_basic_signal defaultConfig dfEdge).confidence = 7/10
    ∧ ¬ (7/10 < (generate_basic_signal defaultConfig dfEdge).confidence
          ∧ (generate_basic_signal defaultConfig dfEdge).confidence ≤ 9/10) := by
  have hc : (generate_basic_signal defaultConfig dfEdge).confidence = 7/10 := by
    norm_num +decide [dfEdge, generate_basic_signal, defaultConfig, basicDecision,
      round3, rhe, round_eq]
  have hs : (generate_basic_signal defaultConfig dfEdge).signal = .BUY := by
    norm_num +decide [dfEdge, generate_basic_signal, defaultConfig, basicDecision]
  exact ⟨hs, hc, by rw [hc]; norm_num⟩

/-! Claim C6. -/

/-- C6: for every batch with at least `min_articles` rows, both positive
and negative counts nonzero and `positive/negative` at least the (positive)
BUY threshold, the basic scorer returns BUY with confidence
`min(0.9, 0.6 + (posRatio/positiveThreshold) * 0.3)` rounded to 3
decimals.  (The threshold positivity mirrors the float division by the
threshold in the source, which would raise on a zero threshold.) -/
theorem claim_c6 (cfg : Config) (df : List Obs)
    (hlen : cfg.min_articles ≤ df.length)
    (hp : 0 < countLabel df .positive)
    (hn : 0 < countLabel df .negative)
    (hthr : 0 < cfg.positive_threshold)
    (hr : cfg.positive_threshold ≤ (countLabel df .positive : ℚ) / countLabel df .negative) :
    (generate_basic_signal cfg df).signal = .BUY
    ∧ (generate_basic_signal cfg df).confidence
        = round3 (min (9/10) (6/10 + ((countLabel df .positive : ℚ) / countLabel df .negative)
            / cfg.positive_threshold * (3/10))) := by
  rw [basic_eq_of_len cfg df (not_lt.mpr hlen), basicDecision_ratio_buy cfg _ _ _ hp hn hr]
  exact ⟨rfl, rfl⟩

/-- Witness for C6, the scenario named in the claim: 15 positive /
3 negative / 2 neutral under the default threshold 2.0 gives BUY with
confidence exactly 0.9. -/
theorem claim_c6_witness :
    defaultConfig.min_articles ≤ dfScenA.length
    ∧ 0 < countLabel dfScenA .positive
    ∧ 0 < countLabel dfScenA .negative
    ∧ defaultConfig.positive_threshold
        ≤ (countLabel dfScenA .positive : ℚ) / countLabel dfScenA .negative
    ∧ (generate_basic_signal defaultConfig dfScenA).signal = .BUY
    ∧ (generate_basic_signal defaultConfig dfScenA).confidence = 9/10 := by
  have h := claim_c6 defaultConfig dfScenA (by norm_num +decide [dfScenA, defaultConfig])
    (by norm_num +decide [dfScenA]) (by norm_num +decide [dfScenA])
    (by norm_num [defaultConfig]) (by norm_num +decide [dfScenA, defaultConfig])
  refine ⟨by norm_num +decide [dfScenA, defaultConfig], by norm_num +decide [dfScenA],
    by norm_num +decide [dfScenA], by norm_num +decide [dfScenA, defaultConfig], h.1, ?_⟩
  rw [h.2]
  norm_num +decide [dfScenA, defaultConfig, round3, rhe, round_eq, min_def]

/-! Claim C9. -/

/-- C9: under thresholds fixed at the default 2.0, any mixed batch (both
counts nonzero, both ratios strictly below their thresholds) of at least
`min_articles` rows has its positive ratio strictly between 1/2 and 2, so
the mixed-HOLD confidence formula `0.5 - |posRatio - 1| * 0.1` is strictly
greater than 0.4; the basic scorer returns HOLD with that formula rounded,
and the rounded confidence is at least 0.4. -/
theorem claim_c9 (cfg : Config) (df : List Obs)
    (hpt : cfg.positive_threshold = 2) (hnt : cfg.negative_threshold = 2)
    (hlen : cfg.min_articles ≤ df.length)
    (hp : 0 < countLabel df .positive) (hn : 0 < countLabel df .negative)
    (hr1 : (countLabel df .positive : ℚ) / countLabel df .negative < cfg.positive_threshold)
    (hr2 : (countLabel df .negative : ℚ) / countLabel df .positive < cfg.negative_threshold) :
    (1/2 : ℚ) < (countLabel df .positive : ℚ) / countLabel df .negative
    ∧ (countLabel df .positive : ℚ) / countLabel df .negative < 2
    ∧ (2/5 : ℚ)
        < 5/10 - |(countLabel df .positive : ℚ) / countLabel df .negative - 1| * (1/10)
    ∧ (generate_basic_signal cfg df).signal = .HOLD
    ∧ (generate_basic_signal cfg df).confidence
        = round3 (5/10 - |(countLabel df .positive : ℚ) / countLabel df .negative - 1| * (1/10))
    ∧ 2/5 ≤ (generate_basic_signal cfg df).confidence := by
  have hP : (0:ℚ) < countLabel df .positive := by exact_mod_cast hp
  have hN : (0:ℚ) < countLabel df .negative := by exact_mod_cast hn
  rw [hpt] at hr1
  rw [hnt] at hr2
  have h2 : (countLabel df .negative : ℚ) < 2 * countLabel df .positive := by
    rw [div_lt_iff hP] at hr2
    linarith
  have hlo : (1/2 : ℚ) < (countLabel df .positive : ℚ) / countLabel df .negative := by
    rw [lt_div_iff hN]
    linarith
  have habs : |(countLabel df .positive : ℚ) / countLabel df .negative - 1| < 1 :=
    abs_lt.mpr ⟨by linarith, by linarith⟩
  have hF : (2/5 : ℚ)
      < 5/10 - |(countLabel df .positive : ℚ) / countLabel df .negative - 1| * (1/10) := by
    linarith
  rw [basic_eq_of_len cfg df (not_lt.mpr hlen),
    basicDecision_mixed_hold cfg _ _ _ hp hn (not_le.mpr (hpt ▸ hr1)) (not_le.mpr (hnt ▸ hr2))]
  exact ⟨hlo, hr1, hF, rfl, rfl, round3_ge_two_fifths _ (le_of_lt hF)⟩

/-- Witness for C9, scenario C of the spec: 8 positive / 7 negative /
5 neutral gives HOLD with confidence 0.486, which is above 0.4. -/
theorem claim_c9_witness :
    0 < countLabel dfScenC .positive
    ∧ 0 < countLabel dfScenC .negative
    ∧ (countLabel dfScenC .positive : ℚ) / countLabel dfScenC .negative < 2
    ∧ (countLabel dfScenC .negative : ℚ) / countLabel dfScenC .positive < 2
    ∧ (generate_basic_signal defaultConfig dfScenC).signal = .HOLD
    ∧ (generate_basic_signal defaultConfig dfScenC).confidence = 243/500
    ∧ 2/5 ≤ (generate_basic_signal defaultConfig dfScenC).confidence := by
  have h := claim_c9 defaultConfig dfScenC (by norm_num [defaultConfig])
    (by norm_num [defaultConfig]) (by norm_num +decide [dfScenC, defaultConfig])
    (by norm_num +decide [dfScenC]) (by norm_num +decide [dfScenC])
    (by norm_num +decide [dfScenC, defaultConfig])
    (by norm_num +decide [dfScenC, defaultConfig])
  refine ⟨by norm_num +decide [dfScenC], by norm_num +decide [dfScenC],
    by norm_num +decide [dfScenC], by norm_num +decide [dfScenC], h.2.2.2.1, ?_, h.2.2.2.2.2⟩
  rw [h.2.2.2.2.1]
  norm_num +decide [dfScenC, round3, rhe, round_eq, abs_of_nonneg, abs_of_nonpos]

/-! Structure of `generate_weighted_signal` and `generate_time_weighted_signal`. -/

theorem weighted_eq_basic_of_insufficient (cfg : Config) (df : List Obs)
    (h : (generate_basic_signal cfg df).signal = .INSUFFICIENT_DATA) :
    generate_weighted_signal cfg df = generate_basic_signal cfg df := by
  simp only [generate_weighted_signal, if_pos h]

theorem weighted_eq_basic_of_zero_weight (cfg : Config) (df : List Obs)
    (h : totalConfWeight df = 0) :
    generate_weighted_signal cfg df = generate_basic_signal cfg df := by
  by_cases h1 : (generate_basic_signal cfg df).signal = .INSUFFICIENT_DATA
  · exact weighted_eq_basic_of_insufficient cfg df h1
  · simp only [generate_weighted_signal, if_neg h1, if_pos h]

theorem weighted_run_eq (cfg : Config) (df : List Obs)
    (h1 : ¬ (generate_basic_signal cfg df).signal = .INSUFFICIENT_DATA)
    (h2 : ¬ totalConfWeight df = 0) :
    generate_weighted_signal cfg df
      = { signal := (weightedDecision cfg df (generate_basic_signal cfg df)).1
          confidence := round3 (weightedDecision cfg df (generate_basic_signal cfg df)).2.1
          reason := (weightedDecision cfg df (generate_basic_signal cfg df)).2.2
          details := dupdate (generate_basic_signal cfg df).details
            (wNewDetails (weightedPct df .positive) (weightedPct df .negative)
              (weightedPct df .neutral) (totalConfWeight df)) } := by
  simp only [generate_weighted_signal, if_neg h1, if_neg h2]

theorem time_eq_weighted_of_zero (cfg : Config) (df : List Obs) (rd : ℕ)
    (h : totalTimeWeight rd df = 0) :
    generate_time_weighted_signal cfg df rd = generate_weighted_signal cfg df := by
  simp only [generate_time_weighted_signal, if_pos h]

theorem time_run_eq (cfg : Config) (df : List Obs) (rd : ℕ)
    (h : ¬ totalTimeWeight rd df = 0) :
    generate_time_weighted_signal cfg df rd
      = { signal := (timeDecision cfg df rd (generate_weighted_signal cfg df)).1
          confidence := round3 (timeDecision cfg df rd (generate_weighted_signal cfg df)).2.1
          reason := (timeDecision cfg df rd (generate_weighted_signal cfg df)).2.2
          details := dupdate (generate_weighted_signal cfg df).details
            (tNewDetails (timePct rd df .positive) (timePct rd df .negative)
              rd (recentCount rd df)) } := by
  simp only [generate_time_weighted_signal, if_neg h]

theorem weightedDecision_buy (cfg : Config) (df : List Obs) (basic : SignalResult)
    (h : weightedPct df .negative * cfg.positive_threshold < weightedPct df .positive) :
    weightedDecision cfg df basic
      = (.BUY, min (19/20) (basic.confidence + cfg.confidence_weight * (2/10)),
         if basic.signal = .BUY then basic.reason
         else weightedBuyReason (weightedPct df .positive) (weightedPct df .negative)) := by
  unfold weightedDecision
  rw [if_pos h]

theorem weightedDecision_sell (cfg : Config) (df : List Obs) (basic : SignalResult)
    (hb : ¬ weightedPct df .negative * cfg.positive_threshold < weightedPct df .positive)
    (h : weightedPct df .positive * cfg.negative_threshold < weightedPct df .negative) :
    weightedDecision cfg df basic
      = (.SELL, min (19/20) (basic.confidence + cfg.confidence_weight * (2/10)),
         if basic.signal = .SELL then basic.reason
         else weightedSellReason (weightedPct df .negative) (weightedPct df .positive)) := by
  unfold weightedDecision
  rw [if_neg hb, if_pos h]

theorem weightedDecision_conf_le (cfg : Config) (df : List Obs) (basic : SignalResult)
    (hb : basic.confidence ≤ 19/20) :
    (weightedDecision cfg df basic).2.1 ≤ 19/20 := by
  unfold weightedDecision
  split_ifs <;> dsimp only <;> first | exact min_le_left _ _ | exact hb

theorem timeDecision_conf_le (cfg : Config) (df : List Obs) (rd : ℕ) (base : SignalResult)
    (hb : base.confidence ≤ 19/20) :
    (timeDecision cfg df rd base).2.1 ≤ 19/20 := by
  unfold timeDecision
  split_ifs <;> dsimp only <;> first | exact min_le_left _ _ | exact hb

theorem weighted_conf_le (cfg : Config) (df : List Obs) :
    (generate_weighted_signal cfg df).confidence ≤ 19/20 := by
  by_cases h1 : (generate_basic_signal cfg df).signal = .INSUFFICIENT_DATA
  · rw [weighted_eq_basic_of_insufficient cfg df h1]
    linarith [basic_conf_le cfg df]
  by_cases h2 : totalConfWeight df = 0
  · rw [weighted_eq_basic_of_zero_weight cfg df h2]
    linarith [basic_conf_le cfg df]
  · rw [weighted_run_eq cfg df h1 h2]
    exact round3_le_cap _ (weightedDecision_conf_le cfg df _
      (le_trans (basic_conf_le cfg df) (by norm_num)))

theorem time_conf_le (cfg : Config) (df : List Obs) (rd : ℕ) :
    (generate_time_weighted_signal cfg df rd).confidence ≤ 19/20 := by
  by_cases h : totalTimeWeight rd df = 0
  · rw [time_eq_weighted_of_zero cfg df rd h]
    exact weighted_conf_le cfg df
  · rw [time_run_eq cfg df rd h]
    exact round3_le_cap _ (timeDecision_conf_le cfg df rd _ (weighted_conf_le cfg df))

/-! Nonnegativity of confidences under the default thresholds. -/

theorem basicDecision_conf_nonneg (cfg : Config) (p n t : ℕ)
    (hpt : cfg.positive_threshold = 2) (hnt : cfg.negative_threshold = 2) :
    0 ≤ (basicDecision cfg p n t).2.1 := by
  unfold basicDecision
  simp only [hpt, hnt]
  split_ifs with h1 h2 h3 h4 h5 <;> dsimp only
  · refine le_min (by norm_num) ?_
    have hx : (0:ℚ) ≤ ((p : ℚ) / t) * (2/10) := by positivity
    linarith
  · refine le_min (by norm_num) ?_
    have hx : (0:ℚ) ≤ ((n : ℚ) / t) * (2/10) := by positivity
    linarith
  · refine le_min (by norm_num) ?_
    have hx : (0:ℚ) ≤ ((p : ℚ) / n) / 2 * (3/10) := by positivity
    linarith
  · refine le_min (by norm_num) ?_
    have hx : (0:ℚ) ≤ ((n : ℚ) / p) / 2 * (3/10) := by positivity
    linarith
  · obtain ⟨hp, hn⟩ := h3
    have hP : (0:ℚ) < p := by exact_mod_cast hp
    have hN : (0:ℚ) < n := by exact_mod_cast hn
    have hhi : (p : ℚ) / n < 2 := not_le.mp h4
    have h2P : (n : ℚ) < 2 * p := by
      have := not_le.mp h5
      rw [div_lt_iff₀ hP] at this
      linarith
    have hlo : (1/2 : ℚ) < (p : ℚ) / n := by
      rw [lt_div_iff₀ hN]
      linarith
    have habs : |(p : ℚ) / n - 1| < 1 := abs_lt.mpr ⟨by linarith, by linarith⟩
    linarith
  · norm_num

theorem basic_conf_nonneg (cfg : Config) (df : List Obs)
    (hpt : cfg.positive_threshold = 2) (hnt : cfg.negative_threshold = 2) :
    0 ≤ (generate_basic_signal cfg df).confidence := by
  by_cases h : df.length < cfg.min_articles
  · simp only [generate_basic_signal, if_pos h]
    norm_num
  · rw [basic_eq_of_len cfg df h]
    exact round3_nonneg _ (basicDecision_conf_nonneg cfg _ _ _ hpt hnt)

theorem weightedDecision_conf_nonneg (cfg : Config) (df : List Obs) (basic : SignalResult)
    (hcw : 0 ≤ cfg.confidence_weight) (hb : 0 ≤ basic.confidence) :
    0 ≤ (weightedDecision cfg df basic).2.1 := by
  have hx : (0:ℚ) ≤ cfg.confidence_weight * (2/10) := by positivity
  unfold weightedDecision
  split_ifs <;> dsimp only <;> first | exact le_min (by norm_num) (by linarith) | exact hb

theorem timeDecision_conf_nonneg (cfg : Config) (df : List Obs) (rd : ℕ) (base : SignalResult)
    (hb : 0 ≤ base.confidence) :
    0 ≤ (timeDecision cfg df rd base).2.1 := by
  unfold timeDecision
  split_ifs <;> dsimp only <;> first | exact le_min (by norm_num) (by linarith) | exact hb

theorem weighted_conf_nonneg (cfg : Config) (df : List Obs)
    (hpt : cfg.positive_threshold = 2) (hnt : cfg.negative_threshold = 2)
    (hcw : 0 ≤ cfg.confidence_weight) :
    0 ≤ (generate_weighted_signal cfg df).confidence := by
  by_cases h1 : (generate_basic_signal cfg df).signal = .INSUFFICIENT_DATA
  · rw [weighted_eq_basic_of_insufficient cfg df h1]
    exact basic_conf_nonneg cfg df hpt hnt
  by_cases h2 : totalConfWeight df = 0
  · rw [weighted_eq_basic_of_zero_weight cfg df h2]
    exact basic_conf_nonneg cfg df hpt hnt
  · rw [weighted_run_eq cfg df h1 h2]
    exact round3_nonneg _ (weightedDecision_conf_nonneg cfg df _ hcw
      (basic_conf_nonneg cfg df hpt hnt))

theorem time_conf_nonneg (cfg : Config) (df : List Obs) (rd : ℕ)
    (hpt : cfg.positive_threshold = 2) (hnt : cfg.negative_threshold = 2)
    (hcw : 0 ≤ cfg.confidence_weight) :
    0 ≤ (generate_time_weighted_signal cfg df rd).confidence := by
  by_cases h : totalTimeWeight rd df = 0
  · rw [time_eq_weighted_of_zero cfg df rd h]
    exact weighted_conf_nonneg cfg df hpt hnt hcw
  · rw [time_run_eq cfg df rd h]
    exact round3_nonneg _ (timeDecision_conf_nonneg cfg df rd _
      (weighted_conf_nonneg cfg df hpt hnt hcw))

/-! Claim C3. -/

/-- C3 (amended): for every batch and every configuration, the rounded
confidence returned by each of the three scorers is at most 0.95 (the cap
is enforced at every upward adjustment); under the default configuration
the confidence is also at least 0.  The lower bound 0 does not hold for
every configuration: the mixed-HOLD branch of the basic scorer is not
floored and goes negative under large thresholds. -/
theorem claim_c3 :
    (∀ (cfg : Config) (df : List Obs) (rd : ℕ),
        (generate_basic_signal cfg df).confidence ≤ 19/20
        ∧ (generate_weighted_signal cfg df).confidence ≤ 19/20
        ∧ (generate_time_weighted_signal cfg df rd).confidence ≤ 19/20)
    ∧ (∀ (df : List Obs) (rd : ℕ),
        0 ≤ (generate_basic_signal defaultConfig df).confidence
        ∧ 0 ≤ (generate_weighted_signal defaultConfig df).confidence
        ∧ 0 ≤ (generate_time_weighted_signal defaultConfig df rd).confidence) := by
  constructor
  · intro cfg df rd
    exact ⟨le_trans (basic_conf_le cfg df) (by norm_num), weighted_conf_le cfg df,
      time_conf_le cfg df rd⟩
  · intro df rd
    refine ⟨basic_conf_nonneg defaultConfig df rfl rfl, ?_, ?_⟩
    · exact weighted_conf_nonneg defaultConfig df rfl rfl (by norm_num [defaultConfig])
    · exact time_conf_nonneg defaultConfig df rd rfl rfl (by norm_num [defaultConfig])

/-- C3 counterexample to the claim as stated: under thresholds of 20.0 a
mixed batch of 10 positive / 1 negative reaches the unfloored HOLD branch
and the basic scorer returns confidence -0.4, outside [0, 0.95]. -/
theorem claim_c3_counterexample :
    (generate_basic_signal cfgWide dfSkew).confidence < 0 := by
  norm_num +decide [dfSkew, generate_basic_signal, cfgWide, basicDecision,
    round3, rhe, round_eq, abs_of_nonneg, abs_of_nonpos]

/-! Claim C5. -/

/-- C5: when the weighted stage runs (enough articles, nonzero total
confidence weight), the BUY override condition forces signal BUY with
confidence `min(0.95, baseConfidence + confidenceWeight * 0.2)` rounded
to 3 decimals (bump applied even if the base was already BUY), and the
reason is replaced only when the signal actually changed from the base;
symmetrically for the SELL condition (which, per the elif, is only
examined when the BUY condition failed). -/
theorem claim_c5 (cfg : Config) (df : List Obs)
    (hlen : cfg.min_articles ≤ df.length)
    (hw : totalConfWeight df ≠ 0) :
    (weightedPct df .negative * cfg.positive_threshold < weightedPct df .positive →
      (generate_weighted_signal cfg df).signal = .BUY
      ∧ (generate_weighted_signal cfg df).confidence
          = round3 (min (19/20)
              ((generate_basic_signal cfg df).confidence + cfg.confidence_weight * (2/10)))
      ∧ (generate_weighted_signal cfg df).reason
          = (if (generate_basic_signal cfg df).signal = .BUY
             then (generate_basic_signal cfg df).reason
             else weightedBuyReason (weightedPct df .positive) (weightedPct df .negative)))
    ∧ (¬ weightedPct df .negative * cfg.positive_threshold < weightedPct df .positive →
        weightedPct df .positive * cfg.negative_threshold < weightedPct df .negative →
      (generate_weighted_signal cfg df).signal = .SELL
      ∧ (generate_weighted_signal cfg df).confidence
          = round3 (min (19/20)
              ((generate_basic_signal cfg df).confidence + cfg.confidence_weight * (2/10)))
      ∧ (generate_weighted_signal cfg df).reason
          = (if (generate_basic_signal cfg df).signal = .SELL
             then (generate_basic_signal cfg df).reason
             else weightedSellReason (weightedPct df .negative) (weightedPct df .positive))) := by
  have h1 : ¬ (generate_basic_signal cfg df).signal = .INSUFFICIENT_DATA := by
    rw [basic_signal_insufficient_iff]
    exact not_lt.mpr hlen
  rw [weighted_run_eq cfg df h1 hw]
  constructor
  · intro hbuy
    rw [weightedDecision_buy cfg df _ hbuy]
    exact ⟨rfl, rfl, rfl⟩
  · intro hnb hsell
    rw [weightedDecision_sell cfg df _ hnb hsell]
    exact ⟨rfl, rfl, rfl⟩

/-- Witness for C5: 5 positive articles at confidence 0.8 against one
negative at 0.1; the base signal is already BUY with confidence 0.9, the
weighted override still applies the bump and caps at 0.95. -/
theorem claim_c5_witness :
    defaultConfig.min_articles ≤ dfWBuy.length
    ∧ totalConfWeight dfWBuy ≠ 0
    ∧ weightedPct dfWBuy .negative * defaultConfig.positive_threshold
        < weightedPct dfWBuy .positive
    ∧ (generate_weighted_signal defaultConfig dfWBuy).signal = .BUY
    ∧ (generate_weighted_signal defaultConfig dfWBuy).confidence = 19/20 := by
  have h := (claim_c5 defaultConfig dfWBuy
    (by norm_num +decide [dfWBuy, defaultConfig])
    (by norm_num +decide [dfWBuy, totalConfWeight])).1
    (by norm_num +decide [dfWBuy, weightedPct, totalConfWeight, defaultConfig])
  refine ⟨by norm_num +decide [dfWBuy, defaultConfig],
    by norm_num +decide [dfWBuy, totalConfWeight],
    by norm_num +decide [dfWBuy, weightedPct, totalConfWeight, defaultConfig], h.1, ?_⟩
  rw [h.2.1]
  have hb : (generate_basic_signal defaultConfig dfWBuy).confidence = 9/10 := by
    norm_num +decide [dfWBuy, generate_basic_signal, basicDecision, defaultConfig,
      round3, rhe, round_eq, min_def]
  rw [hb]
  norm_num [round3, rhe, round_eq, min_def, defaultConfig]

/-! Claim C7. -/

/-- C7: a zero total confidence weight makes the weighted stage return the
basic result unchanged, and a zero total time weight makes the
time-weighted stage return the weighted result unchanged. -/
theorem claim_c7 (cfg : Config) (df : List Obs) (rd : ℕ) :
    (totalConfWeight df = 0 →
      generate_weighted_signal cfg df = generate_basic_signal cfg df)
    ∧ (totalTimeWeight rd df = 0 →
      generate_time_weighted_signal cfg df rd = generate_weighted_signal cfg df) := by
  exact ⟨weighted_eq_basic_of_zero_weight cfg df, time_eq_weighted_of_zero cfg df rd⟩

/-- Witness for C7: five positive articles with all confidences 0 trigger
the zero-weight fallback of the weighted stage, and the empty batch
triggers the zero-weight fallback of the time-weighted stage. -/
theorem claim_c7_witness :
    (totalConfWeight dfZeroConf = 0
      ∧ generate_weighted_signal defaultConfig dfZeroConf
          = generate_basic_signal defaultConfig dfZeroConf)
    ∧ (totalTimeWeight 7 ([] : List Obs) = 0
      ∧ generate_time_weighted_signal defaultConfig ([] : List Obs) 7
          = generate_weighted_signal defaultConfig ([] : List Obs)) := by
  refine ⟨⟨?_, ?_⟩, ⟨?_, ?_⟩⟩
  · norm_num +decide [dfZeroConf, totalConfWeight]
  · exact (claim_c7 defaultConfig dfZeroConf 7).1
      (by norm_num +decide [dfZeroConf, totalConfWeight])
  · norm_num [totalTimeWeight]
  · exact (claim_c7 defaultConfig ([] : List Obs) 7).2 (by norm_num [totalTimeWeight])

/-! Dictionary lemmas for the details frame property. -/

theorem dlookup_append_some (d rest : Details) (k : String) (v : DetailVal)
    (h : dlookup d k = some v) : dlookup (d ++ rest) k = some v := by
  induction d with
  | nil => simp [dlookup] at h
  | cons e tl ih =>
    rw [List.cons_append]
    unfold dlookup at h ⊢
    split_ifs at h ⊢
    · exact h
    · exact ih h

theorem dinsert_eq_append (d : Details) (e : String × DetailVal)
    (h : dhasKey d e.1 = false) : dinsert d e = d ++ [e] := by
  simp [dinsert, h]

theorem dupdate_eq_append (d news : Details)
    (hdis : ∀ e ∈ news, dhasKey d e.1 = false)
    (hnd : news.Pairwise (fun a b => (a.1 == b.1) = false)) :
    dupdate d news = d ++ news := by
  induction news generalizing d with
  | nil => simp [dupdate]
  | cons e tl ih =>
    have he : dhasKey d e.1 = false := hdis e (by simp)
    have step : dupdate d (e :: tl) = dupdate (dinsert d e) tl := rfl
    rw [step, dinsert_eq_append d e he, ih (d ++ [e]) ?_ ?_]
    · simp
    · intro e2 he2
      have hd1 : dhasKey d e2.1 = false := hdis e2 (by simp [he2])
      have hd2 : (e.1 == e2.1) = false := (List.pairwise_cons.mp hnd).1 e2 he2
      simp only [dhasKey, List.any_append] at hd1 ⊢
      simp [hd1, hd2]
    · exact (List.pairwise_cons.mp hnd).2

theorem dhasKey_of_keys (d : Details) (K : List String) (hK : d.map Prod.fst = K)
    (k : String) : dhasKey d k = K.any (fun s => s == k) := by
  subst hK
  induction d with
  | nil => rfl
  | cons e tl ih =>
    simp only [dhasKey, List.any_cons, List.map_cons] at ih ⊢
    rw [ih]

theorem wNewDetails_keys (a b c tw : ℚ) : (wNewDetails a b c tw).map Prod.fst = wKeys := rfl

theorem tNewDetails_keys (a b : ℚ) (rd rc : ℕ) :
    (tNewDetails a b rd rc).map Prod.fst = tKeys := rfl

theorem wNewDetails_nodup (a b c tw : ℚ) :
    (wNewDetails a b c tw).Pairwise (fun x y => (x.1 == y.1) = false) := by
  simp [wNewDetails, List.pairwise_cons]

theorem tNewDetails_nodup (a b : ℚ) (rd rc : ℕ) :
    (tNewDetails a b rd rc).Pairwise (fun x y => (x.1 == y.1) = false) := by
  simp [tNewDetails, List.pairwise_cons]

theorem basic_details_keys_of_ne (cfg : Config) (df : List Obs)
    (h : ¬ (generate_basic_signal cfg df).signal = .INSUFFICIENT_DATA) :
    (generate_basic_signal cfg df).details.map Prod.fst = basicKeys := by
  have hlen : ¬ df.length < cfg.min_articles :=
    fun hl => h ((basic_signal_insufficient_iff cfg df).mpr hl)
  rw [basic_eq_of_len cfg df hlen]
  rfl

theorem basic_details_keys_cases (cfg : Config) (df : List Obs) :
    (generate_basic_signal cfg df).details = []
    ∨ (generate_basic_signal cfg df).details.map Prod.fst = basicKeys := by
  by_cases h : df.length < cfg.min_articles
  · left
    simp only [generate_basic_signal, if_pos h]
  · right
    rw [basic_eq_of_len cfg df h]
    rfl

theorem weighted_run_details (cfg : Config) (df : List Obs)
    (h1 : ¬ (generate_basic_signal cfg df).signal = .INSUFFICIENT_DATA)
    (h2 : ¬ totalConfWeight df = 0) :
    (generate_weighted_signal cfg df).details
      = (generate_basic_signal cfg df).details
          ++ wNewDetails (weightedPct df .positive) (weightedPct df .negative)
            (weightedPct df .neutral) (totalConfWeight df) := by
  rw [weighted_run_eq cfg df h1 h2]
  apply dupdate_eq_append
  · intro e he
    rw [dhasKey_of_keys _ basicKeys (basic_details_keys_of_ne cfg df h1)]
    simp only [wNewDetails, List.mem_cons, List.not_mem_nil, or_false] at he
    rcases he with rfl | rfl | rfl | rfl | rfl <;> (dsimp only; decide)
  · exact wNewDetails_nodup _ _ _ _

theorem weighted_details_keys_cases (cfg : Config) (df : List Obs) :
    (generate_weighted_signal cfg df).details = []
    ∨ (generate_weighted_signal cfg df).details.map Prod.fst = basicKeys
    ∨ (generate_weighted_signal cfg df).details.map Prod.fst = basicKeys ++ wKeys := by
  by_cases h1 : (generate_basic_signal cfg df).signal = .INSUFFICIENT_DATA
  · rw [weighted_eq_basic_of_insufficient cfg df h1]
    rcases basic_details_keys_cases cfg df with h | h
    · exact Or.inl h
    · exact Or.inr (Or.inl h)
  by_cases h2 : totalConfWeight df = 0
  · rw [weighted_eq_basic_of_zero_weight cfg df h2]
    rcases basic_details_keys_cases cfg df with h | h
    · exact Or.inl h
    · exact Or.inr (Or.inl h)
  · refine Or.inr (Or.inr ?_)
    rw [weighted_run_details cfg df h1 h2, List.map_append,
      basic_details_keys_of_ne cfg df h1, wNewDetails_keys]

theorem time_run_details (cfg : Config) (df : List Obs) (rd : ℕ)
    (h : ¬ totalTimeWeight rd df = 0) :
    (generate_time_weighted_signal cfg df rd).details
      = (generate_weighted_signal cfg df).details
          ++ tNewDetails (timePct rd df .positive) (timePct rd df .negative)
            rd (recentCount rd df) := by
  rw [time_run_eq cfg df rd h]
  apply dupdate_eq_append
  · intro e he
    simp only [tNewDetails, List.mem_cons, List.not_mem_nil, or_false] at he
    rcases weighted_details_keys_cases cfg df with hk | hk | hk
    · simp [dhasKey, hk]
    · rw [dhasKey_of_keys _ basicKeys hk]
      rcases he with rfl | rfl | rfl | rfl <;> (dsimp only; decide)
    · rw [dhasKey_of_keys _ (basicKeys ++ wKeys) hk]
      rcases he with rfl | rfl | rfl | rfl <;> (dsimp only; decide)
  · exact tNewDetails_nodup _ _ _ _

/-! Claim C8. -/

/-- C8: on every batch, every key-value pair of the basic stage details
survives unchanged into the weighted stage details, and every key-value
pair of the weighted stage details survives unchanged into the
time-weighted stage details: the later stages only add entries. -/
theorem claim_c8 (cfg : Config) (df : List Obs) (rd : ℕ) (k : String) (v : DetailVal) :
    (dlookup (generate_basic_signal cfg df).details k = some v →
      dlookup (generate_weighted_signal cfg df).details k = some v)
    ∧ (dlookup (generate_weighted_signal cfg df).details k = some v →
      dlookup (generate_time_weighted_signal cfg df rd).details k = some v) := by
  constructor
  · intro h
    by_cases h1 : (generate_basic_signal cfg df).signal = .INSUFFICIENT_DATA
    · rw [weighted_eq_basic_of_insufficient cfg df h1]
      exact h
    by_cases h2 : totalConfWeight df = 0
    · rw [weighted_eq_basic_of_zero_weight cfg df h2]
      exact h
    · rw [weighted_run_details cfg df h1 h2]
      exact dlookup_append_some _ _ _ _ h
  · intro h
    by_cases hz : totalTimeWeight rd df = 0
    · rw [time_eq_weighted_of_zero cfg df rd hz]
      exact h
    · rw [time_run_details cfg df rd hz]
      exact dlookup_append_some _ _ _ _ h

/-- Witness for C8: in the 15/3/2 scenario the entry `total_articles = 20`
written by the basic stage is still found unchanged in the weighted and
time-weighted results. -/
theorem claim_c8_witness :
    dlookup (generate_basic_signal defaultConfig dfScenA).details "total_articles"
      = some (.num 20)
    ∧ dlookup (generate_weighted_signal defaultConfig dfScenA).details "total_articles"
      = some (.num 20)
    ∧ dlookup (generate_time_weighted_signal defaultConfig dfScenA 7).details "total_articles"
      = some (.num 20) := by
  have h1 : dlookup (generate_basic_signal defaultConfig dfScenA).details "total_articles"
      = some (.num 20) := by
    norm_num +decide [dfScenA, generate_basic_signal, basicDetails, defaultConfig, dlookup]
  have h2 := (claim_c8 defaultConfig dfScenA 7 "total_articles" (.num 20)).1 h1
  exact ⟨h1, h2, (claim_c8 defaultConfig dfScenA 7 "total_articles" (.num 20)).2 h2⟩

/-! Signal propagation lemmas for the pipeline. -/

theorem weightedDecision_signal_eq (cfg : Config) (df : List Obs) (basic : SignalResult)
    (h : (weightedDecision cfg df basic).1 = .INSUFFICIENT_DATA) :
    basic.signal = .INSUFFICIENT_DATA := by
  unfold weightedDecision at h
  split_ifs at h <;> simp_all

theorem timeDecision_signal_eq (cfg : Config) (df : List Obs) (rd : ℕ) (base : SignalResult)
    (h : (timeDecision cfg df rd base).1 = .INSUFFICIENT_DATA) :
    base.signal = .INSUFFICIENT_DATA := by
  unfold timeDecision at h
  split_ifs at h <;> simp_all

theorem timeDecision_pass (cfg : Config) (df : List Obs) (rd : ℕ) (base : SignalResult)
    (h1 : ¬ sumTimeWeightLabel rd df .negative * cfg.positive_threshold
        < sumTimeWeightLabel rd df .positive)
    (h2 : ¬ sumTimeWeightLabel rd df .positive * cfg.negative_threshold
        < sumTimeWeightLabel rd df .negative) :
    timeDecision cfg df rd base = (base.signal, base.confidence, base.reason) := by
  unfold timeDecision
  rw [if_neg h1, if_neg h2]

theorem timeDecision_sell (cfg : Config) (df : List Obs) (rd : ℕ) (base : SignalResult)
    (h1 : ¬ sumTimeWeightLabel rd df .negative * cfg.positive_threshold
        < sumTimeWeightLabel rd df .positive)
    (h2 : sumTimeWeightLabel rd df .positive * cfg.negative_threshold
        < sumTimeWeightLabel rd df .negative) :
    timeDecision cfg df rd base
      = (.SELL, min (19/20) (base.confidence + 1/10),
         "Time-weighted analysis favors SELL: " ++ toString (timePct rd df .negative)
           ++ "% negative (recent articles weighted 2x)") := by
  unfold timeDecision
  rw [if_neg h1, if_pos h2]

theorem timeDecision_buy (cfg : Config) (df : List Obs) (rd : ℕ) (base : SignalResult)
    (h : sumTimeWeightLabel rd df .negative * cfg.positive_threshold
        < sumTimeWeightLabel rd df .positive) :
    timeDecision cfg df rd base
      = (.BUY, min (19/20) (base.confidence + 1/10),
         "Time-weighted analysis favors BUY: " ++ toString (timePct rd df .positive)
           ++ "% positive (recent articles weighted 2x)") := by
  unfold timeDecision
  rw [if_pos h]

theorem weighted_signal_insufficient_imp (cfg : Config) (df : List Obs)
    (h : (generate_weighted_signal cfg df).signal = .INSUFFICIENT_DATA) :
    (generate_basic_signal cfg df).signal = .INSUFFICIENT_DATA := by
  by_cases h1 : (generate_basic_signal cfg df).signal = .INSUFFICIENT_DATA
  · exact h1
  by_cases h2 : totalConfWeight df = 0
  · rw [weighted_eq_basic_of_zero_weight cfg df h2] at h
    exact h
  · rw [weighted_run_eq cfg df h1 h2] at h
    exact weightedDecision_signal_eq cfg df _ h

theorem weighted_conf_zero_of_insufficient (cfg : Config) (df : List Obs)
    (h : (generate_weighted_signal cfg df).signal = .INSUFFICIENT_DATA) :
    (generate_weighted_signal cfg df).confidence = 0 := by
  have hb := weighted_signal_insufficient_imp cfg df h
  rw [weighted_eq_basic_of_insufficient cfg df hb]
  exact basic_conf_zero_of_insufficient cfg df hb

theorem time_signal_insufficient_imp (cfg : Config) (df : List Obs) (rd : ℕ)
    (h : (generate_time_weighted_signal cfg df rd).signal = .INSUFFICIENT_DATA) :
    (generate_weighted_signal cfg df).signal = .INSUFFICIENT_DATA := by
  by_cases hz : totalTimeWeight rd df = 0
  · rw [time_eq_weighted_of_zero cfg df rd hz] at h
    exact h
  · rw [time_run_eq cfg df rd hz] at h
    exact timeDecision_signal_eq cfg df rd _ h

theorem time_conf_zero_of_insufficient (cfg : Config) (df : List Obs) (rd : ℕ)
    (h : (generate_time_weighted_signal cfg df rd).signal = .INSUFFICIENT_DATA) :
    (generate_time_weighted_signal cfg df rd).confidence = 0 := by
  have hw := time_signal_insufficient_imp cfg df rd h
  by_cases hz : totalTimeWeight rd df = 0
  · rw [time_eq_weighted_of_zero cfg df rd hz]
    exact weighted_conf_zero_of_insufficient cfg df hw
  · rw [time_run_eq cfg df rd hz] at h ⊢
    by_cases hc1 : sumTimeWeightLabel rd df .negative * cfg.positive_threshold
        < sumTimeWeightLabel rd df .positive
    · rw [timeDecision_buy cfg df rd _ hc1] at h
      exact absurd h (by simp)
    by_cases hc2 : sumTimeWeightLabel rd df .positive * cfg.negative_threshold
        < sumTimeWeightLabel rd df .negative
    · rw [timeDecision_sell cfg df rd _ hc1 hc2] at h
      exact absurd h (by simp)
    · rw [timeDecision_pass cfg df rd _ hc1 hc2]
      dsimp only
      rw [weighted_conf_zero_of_insufficient cfg df hw, round3_zero]

/-! Claim C1. -/

/-- C1 (evaluating the code at the failing input): a batch of two positive
articles aged 0 days is below the default `min_articles = 5`; the basic
and weighted scorers short-circuit to INSUFFICIENT_DATA with confidence 0,
but the time-weighted scorer, which has no INSUFFICIENT_DATA guard,
overrides the short-circuit and returns BUY with confidence 0.1. -/
theorem claim_c1 :
    dfBug.length < defaultConfig.min_articles
    ∧ (generate_basic_signal defaultConfig dfBug).signal = .INSUFFICIENT_DATA
    ∧ (generate_basic_signal defaultConfig dfBug).confidence = 0
    ∧ (generate_weighted_signal defaultConfig dfBug).signal = .INSUFFICIENT_DATA
    ∧ (generate_weighted_signal defaultConfig dfBug).confidence = 0
    ∧ (generate_time_weighted_signal defaultConfig dfBug 7).signal = .BUY
    ∧ (generate_time_weighted_signal defaultConfig dfBug 7).confidence = 1/10 := by
  have hlen : dfBug.length < defaultConfig.min_articles := by
    norm_num [dfBug, defaultConfig]
  have hbs : (generate_basic_signal defaultConfig dfBug).signal = .INSUFFICIENT_DATA :=
    (basic_signal_insufficient_iff _ _).mpr hlen
  have hbc := basic_conf_zero_of_insufficient _ _ hbs
  have hw := weighted_eq_basic_of_insufficient defaultConfig dfBug hbs
  have ht : ¬ totalTimeWeight 7 dfBug = 0 := by
    norm_num +decide [dfBug, totalTimeWeight, timeWeight]
  have hbuy : sumTimeWeightLabel 7 dfBug .negative * defaultConfig.positive_threshold
      < sumTimeWeightLabel 7 dfBug .positive := by
    norm_num +decide [dfBug, defaultConfig, timeWeight]
  have htr := time_run_eq defaultConfig dfBug 7 ht
  rw [htr, timeDecision_buy defaultConfig dfBug 7 _ hbuy]
  refine ⟨hlen, hbs, hbc, ?_, ?_, rfl, ?_⟩
  · rw [hw]; exact hbs
  · rw [hw]; exact hbc
  · show round3 (min (19/20) ((generate_weighted_signal defaultConfig dfBug).confidence
      + 1/10)) = 1/10
    rw [hw, hbc]
    norm_num [round3, rhe, round_eq, min_def]

/-! Claim C2. -/

/-- C2: the consensus is BUY exactly when at least 2 of the 3 stage votes
are BUY, SELL exactly when at least 2 are SELL, and HOLD otherwise; in
particular (BUY, BUY, SELL) gives BUY and (BUY, SELL, HOLD) gives HOLD,
and an INSUFFICIENT_DATA vote gets no special handling (the vote counts
alone decide, over all 64 triples). -/
theorem claim_c2 :
    (∀ s1 s2 s3 : Signal,
        (consensusSignal s1 s2 s3 = .BUY ↔ 2 ≤ [s1, s2, s3].count .BUY)
        ∧ (consensusSignal s1 s2 s3 = .SELL
            ↔ [s1, s2, s3].count .BUY < 2 ∧ 2 ≤ [s1, s2, s3].count .SELL)
        ∧ (consensusSignal s1 s2 s3 = .HOLD
            ↔ [s1, s2, s3].count .BUY < 2 ∧ [s1, s2, s3].count .SELL < 2))
    ∧ consensusSignal .BUY .BUY .SELL = .BUY
    ∧ consensusSignal .BUY .SELL .HOLD = .HOLD := by
  refine ⟨?_, rfl, rfl⟩
  decide

/-! Claim C10. -/

theorem consensus_cases (s1 s2 s3 : Signal) :
    consensusSignal s1 s2 s3 = .BUY ∨ consensusSignal s1 s2 s3 = .SELL
      ∨ consensusSignal s1 s2 s3 = .HOLD := by
  unfold consensusSignal
  split_ifs <;> simp

/-- C10: the consensus signal is always one of BUY, SELL, HOLD (never
INSUFFICIENT_DATA); and when all three stage signals are
INSUFFICIENT_DATA the consensus is HOLD with average confidence 0. -/
theorem claim_c10 (cfg : Config) (df : List Obs) (rd : ℕ) :
    ((runConsensus cfg df rd).1 = .BUY ∨ (runConsensus cfg df rd).1 = .SELL
      ∨ (runConsensus cfg df rd).1 = .HOLD)
    ∧ ((generate_basic_signal cfg df).signal = .INSUFFICIENT_DATA →
       (generate_weighted_signal cfg df).signal = .INSUFFICIENT_DATA →
       (generate_time_weighted_signal cfg df rd).signal = .INSUFFICIENT_DATA →
       runConsensus cfg df rd = (.HOLD, 0)) := by
  constructor
  · exact consensus_cases _ _ _
  · intro h1 h2 h3
    have c1 := basic_conf_zero_of_insufficient cfg df h1
    have c2 := weighted_conf_zero_of_insufficient cfg df h2
    have c3 := time_conf_zero_of_insufficient cfg df rd h3
    simp only [runConsensus, h1, h2, h3, c1, c2, c3]
    have hz : ((0:ℚ) + 0 + 0) / 3 = 0 := by norm_num
    rw [hz, round3_zero]
    rfl

/-- Witness for C10: three neutral articles leave every stage at
INSUFFICIENT_DATA (the time-weighted overrides do not fire), and the
consensus is HOLD with confidence 0. -/
theorem claim_c10_witness :
    (generate_basic_signal defaultConfig dfNeutral3).signal = .INSUFFICIENT_DATA
    ∧ (generate_weighted_signal defaultConfig dfNeutral3).signal = .INSUFFICIENT_DATA
    ∧ (generate_time_weighted_signal defaultConfig dfNeutral3 7).signal = .INSUFFICIENT_DATA
    ∧ runConsensus defaultConfig dfNeutral3 7 = (.HOLD, 0) := by
  have h1 : (generate_basic_signal defaultConfig dfNeutral3).signal = .INSUFFICIENT_DATA :=
    (basic_signal_insufficient_iff _ _).mpr (by norm_num [dfNeutral3, defaultConfig])
  have h2 : (generate_weighted_signal defaultConfig dfNeutral3).signal
      = .INSUFFICIENT_DATA := by
    rw [weighted_eq_basic_of_insufficient defaultConfig dfNeutral3 h1]
    exact h1
  have h3 : (generate_time_weighted_signal defaultConfig dfNeutral3 7).signal
      = .INSUFFICIENT_DATA := by
    have hz : ¬ totalTimeWeight 7 dfNeutral3 = 0 := by
      norm_num +decide [dfNeutral3, totalTimeWeight, timeWeight]
    have hc1 : ¬ sumTimeWeightLabel 7 dfNeutral3 .negative * defaultConfig.positive_threshold
        < sumTimeWeightLabel 7 dfNeutral3 .positive := by
      norm_num +decide [dfNeutral3, defaultConfig, timeWeight]
    have hc2 : ¬ sumTimeWeightLabel 7 dfNeutral3 .positive * defaultConfig.negative_threshold
        < sumTimeWeightLabel 7 dfNeutral3 .negative := by
      norm_num +decide [dfNeutral3, defaultConfig, timeWeight]
    rw [time_run_eq defaultConfig dfNeutral3 7 hz,
      timeDecision_pass defaultConfig dfNeutral3 7 _ hc1 hc2]
    exact h2
  exact ⟨h1, h2, h3, (claim_c10 defaultConfig dfNeutral3 7).2 h1 h2 h3⟩

end SignalGen
